import Mathlib

/-!
Verification of the client-side conversation controller of the
`agent-chat-ui` repository: the tool-response reconciler, the optimistic
submission controller (`handleSubmit` and its variants), the error
deduplicator, the full-screen component selector, and the
first-token/state-machine effect, embedded shallowly from
`src/components/thread/index.tsx` and its two sibling variants.
-/

namespace AgentChat

/-- Message roles. The source uses the string field `type` with values
`"human"`, `"ai"`, `"tool"`. -/
inductive Role where
  | human
  | ai
  | tool
  deriving DecidableEq, Repr

/-- A tool invocation request emitted by an `ai` message
(spec §3: `callId`, `name`, `arguments`). -/
structure ToolCall where
  callId : String
  name : String
  arguments : String := ""
  deriving DecidableEq, Repr

/-- A content block, as built in the attachment-capable `handleSubmit`
variant: `{ type: "text", text: input }` plus opaque attachment blocks. -/
structure ContentBlock where
  type : String
  text : String
  deriving DecidableEq, Repr

/-- Message content: either a plain string (`content: input.trim()` in
`index.tsx`) or a list of content blocks (attachment variant). -/
inductive MessageContent where
  | text (s : String)
  | blocks (bs : List ContentBlock)
  deriving DecidableEq, Repr

/-- A conversation message. `toolCalls` is meaningful for `ai` messages,
`toolCallId` for `tool` messages (spec §3 data model). -/
structure Message where
  id : String
  role : Role
  content : MessageContent
  toolCalls : List ToolCall := []
  toolCallId : Option String := none
  deriving DecidableEq, Repr

/-- An out-of-band UI payload carried by a snapshot (`values.ui` entries,
with `id` and `name`; props are opaque to the controller). -/
structure UIPayload where
  id : String
  name : String
  props : String := ""
  deriving DecidableEq, Repr

/-- The artifact side-channel context, an opaque key/value mapping; the
source only observes `Object.keys(artifactContext).length`. -/
abbrev ArtifactContext := List (String × String)

/-- A stream snapshot as read by the controller: `values.messages`,
`values.ui` and `values.context`, each possibly absent (`undefined`). -/
structure StreamValues where
  messages : Option (List Message) := none
  ui : Option (List UIPayload) := none
  context : Option ArtifactContext := none
  deriving DecidableEq, Repr

/-! ## Tool-response reconciler

The function `ensureToolCallsHaveResponses` is imported in the source from
`@/lib/ensure-tool-responses`, a module that is not part of the provided
sources; it is modelled here from the spec (§4.1).
-/

/-- Whether message `m` answers the tool call with id `c`: `m` is a
`tool`-role message carrying the matching `callId` (spec §3). -/
def answersCall (c : String) (m : Message) : Bool :=
  match m.role with
  | .tool => m.toolCallId == some c
  | _ => false

/-- The tool-call ids emitted by a message: those of its ToolCall records
when it is an `ai` message, none otherwise (spec §4.1). -/
def emittedCallIds (m : Message) : List String :=
  match m.role with
  | .ai => m.toolCalls.map (fun tc => tc.callId)
  | _ => []

/-- Modelled from the spec: one step of the §4.1 scan, which is missing
from the provided sources (`@/lib/ensure-tool-responses`). An `ai` message
appends its emitted call ids to the outstanding collection (kept as a list
to preserve original call order), a `tool` message removes its `callId`,
other messages leave it unchanged. -/
def reconcileStep (outstanding : List String) (m : Message) : List String :=
  match m.role with
  | .ai => outstanding ++ m.toolCalls.map (fun tc => tc.callId)
  | .tool => outstanding.filter (fun c => !(m.toolCallId == some c))
  | .human => outstanding

theorem reconcileStep_ai (acc : List String) (m : Message) (h : m.role = .ai) :
    reconcileStep acc m = acc ++ m.toolCalls.map (fun tc => tc.callId) := by
  simp [reconcileStep, h]

theorem reconcileStep_tool (acc : List String) (m : Message) (h : m.role = .tool) :
    reconcileStep acc m = acc.filter (fun c => !(m.toolCallId == some c)) := by
  simp [reconcileStep, h]

theorem reconcileStep_human (acc : List String) (m : Message) (h : m.role = .human) :
    reconcileStep acc m = acc := by
  simp [reconcileStep, h]

/-- Modelled from the spec: the §4.1 single scan of the sequence,
accumulating emitted tool-call ids and discharging answered ones. -/
def outstandingToolCallIds (msgs : List Message) : List String :=
  msgs.foldl reconcileStep []

/-- Modelled from the spec: a synthesized `tool`-role result for an
unanswered call, carrying a fixed "skipped/interrupted" payload. The spec
mints a fresh random message id per synthesis; id generation is modelled
deterministically from the call id, which no claim depends on. -/
def syntheticToolResult (c : String) : Message :=
  { id := "synthetic-" ++ c
    role := .tool
    content := .text "Tool call was interrupted: result skipped."
    toolCalls := []
    toolCallId := some c }

/-- Modelled from the spec (§4.1 contract): one synthetic tool result per
ToolCall emitted by an `ai` message and not yet answered by a `tool`
message, in original call order. -/
def ensureToolCallsHaveResponses (msgs : List Message) : List Message :=
  (outstandingToolCallIds msgs).map syntheticToolResult

/-- Declarative characterisation used to state C1: the ids of ToolCalls
emitted by `ai` messages that are not answered by any later `tool` message
of the sequence, in original call order. -/
def unansweredToolCallIds : List Message → List String
  | [] => []
  | m :: rest =>
    (emittedCallIds m).filter (fun c => !(rest.any (answersCall c)))
      ++ unansweredToolCallIds rest

theorem answersCall_of_not_tool (c : String) (m : Message) (h : m.role ≠ .tool) :
    answersCall c m = false := by
  unfold answersCall
  cases hrole : m.role with
  | tool => exact absurd hrole h
  | ai => rfl
  | human => rfl

theorem foldl_reconcileStep (msgs : List Message) (acc : List String) :
    msgs.foldl reconcileStep acc
      = acc.filter (fun c => !(msgs.any (answersCall c)))
          ++ unansweredToolCallIds msgs := by
  induction msgs generalizing acc with
  | nil => simp [unansweredToolCallIds]
  | cons m rest ih =>
    rw [List.foldl_cons, ih]
    rw [show unansweredToolCallIds (m :: rest)
        = (emittedCallIds m).filter (fun c => !(rest.any (answersCall c)))
            ++ unansweredToolCallIds rest from rfl]
    cases hrole : m.role with
    | ai =>
      rw [reconcileStep_ai acc m hrole, List.filter_append]
      have hans : ∀ c : String, answersCall c m = false := fun c =>
        answersCall_of_not_tool c m (by rw [hrole]; intro h; cases h)
      have hemit : emittedCallIds m = m.toolCalls.map (fun tc => tc.callId) := by
        simp [emittedCallIds, hrole]
      rw [hemit, List.append_assoc]
      congr 1
      apply List.filter_congr
      intro c _
      simp [List.any_cons, hans c]
    | tool =>
      rw [reconcileStep_tool acc m hrole, List.filter_filter]
      have hemit : emittedCallIds m = [] := by simp [emittedCallIds, hrole]
      have hans : ∀ c : String, answersCall c m = (m.toolCallId == some c) := by
        intro c
        unfold answersCall
        rw [hrole]
      rw [hemit]
      simp only [List.filter_nil, List.nil_append]
      congr 1
      apply List.filter_congr
      intro c _
      simp [List.any_cons, hans c, Bool.not_or, Bool.and_comm]
    | human =>
      rw [reconcileStep_human acc m hrole]
      have hans : ∀ c : String, answersCall c m = false := fun c =>
        answersCall_of_not_tool c m (by rw [hrole]; intro h; cases h)
      have hemit : emittedCallIds m = [] := by simp [emittedCallIds, hrole]
      rw [hemit]
      simp only [List.filter_nil, List.nil_append]
      congr 1
      apply List.filter_congr
      intro c _
      simp [List.any_cons, hans c]

theorem outstanding_eq_unanswered (msgs : List Message) :
    outstandingToolCallIds msgs = unansweredToolCallIds msgs := by
  simpa using foldl_reconcileStep msgs []

theorem answersCall_syntheticToolResult (c d : String) :
    answersCall c (syntheticToolResult d) = (d == c) := by
  simp [answersCall, syntheticToolResult]

/-- A `human`-role message with plain text content, as constructed by
`handleSubmit` (`{ id: uuidv4(), type: "human", content: ... }`). -/
def humanTextMessage (freshId text : String) : Message :=
  { id := freshId, role := .human, content := .text text }

/-- C1: the Reconciler run at submission time returns exactly one synthetic
ToolResultMessage per ToolCall that was emitted by an `ai` message and is
not answered by any later `tool` message in the sequence, in the original
call order (the synthesized call ids coincide, as an ordered list, with
the unanswered call ids); every synthesized message is `tool`-role, and in
the dispatched increment (the synthetic results followed by the new human
message) each such ToolCall is matched by exactly one ToolResultMessage,
all of which precede the new human message. -/
theorem reconciler_synthesizes_exactly_unanswered
    (msgs : List Message) (freshId text : String) :
    (ensureToolCallsHaveResponses msgs).map (fun m => m.toolCallId)
        = (unansweredToolCallIds msgs).map some
    ∧ (ensureToolCallsHaveResponses msgs).all (fun m => m.role == .tool) = true
    ∧ (∀ c : String,
        (ensureToolCallsHaveResponses msgs ++ [humanTextMessage freshId text]).countP
              (fun m => answersCall c m)
          = (unansweredToolCallIds msgs).count c)
    ∧ (ensureToolCallsHaveResponses msgs ++ [humanTextMessage freshId text]).getLast?
        = some (humanTextMessage freshId text) := by
  refine ⟨?_, ?_, ?_, ?_⟩
  · rw [ensureToolCallsHaveResponses, outstanding_eq_unanswered, List.map_map]
    rfl
  · rw [ensureToolCallsHaveResponses]
    simp [syntheticToolResult]
  · intro c
    rw [List.countP_append, ensureToolCallsHaveResponses, outstanding_eq_unanswered,
      List.countP_map]
    have h1 : (List.countP (fun m => answersCall c m) [humanTextMessage freshId text]) = 0 := by
      simp [List.countP, List.countP.go, answersCall, humanTextMessage]
    rw [h1, Nat.add_zero, List.count_eq_countP]
    apply List.countP_congr
    intro d _
    simp [Function.comp, answersCall_syntheticToolResult]
  · exact List.getLast?_concat _

/-! ## Optimistic submission controller

`handleSubmit` from `src/components/thread/index.tsx` (plain-text variant),
the attachment-capable variant, and `handleLuckyClick` from the
welcome-screen variant. The fresh uuid minted by `uuidv4()` is passed as
the `freshId` argument; the `stream.submit` call is returned as data. -/

/-- The argument pair handed to `stream.submit`: the dispatched increment
(`{ messages, context }`) together with the options (`streamMode` and the
`optimisticValues` projection). -/
structure SubmitCall where
  messages : List Message
  context : Option ArtifactContext
  streamMode : List String
  optimisticValues : StreamValues → StreamValues

/-- The component-local state touched by the submit handlers: the input
buffer, the pending attachment blocks and the first-token flag. -/
structure ThreadLocal where
  input : String
  contentBlocks : List ContentBlock := []
  firstTokenReceived : Bool
  deriving DecidableEq, Repr

/-- JavaScript `String.prototype.trim()`, modelled over the character
list: drop whitespace from both ends. -/
def jsTrim (s : String) : String :=
  String.mk ((s.data.dropWhile Char.isWhitespace).reverse.dropWhile Char.isWhitespace).reverse

/-- The context attached to a submission:
`Object.keys(artifactContext).length > 0 ? artifactContext : undefined`. -/
def contextIfNonEmpty (artifactContext : ArtifactContext) : Option ArtifactContext :=
  if artifactContext.length > 0 then some artifactContext else none

/-- The `optimisticValues` projection built by the submit handlers:
`(prev) => ({ ...prev, context, messages: [...(prev.messages ?? []), ...toolMessages, newHumanMessage] })`.
Note that the `context` property overwrites the previous value even when it
is `undefined` (`none`). -/
def mkOptimisticValues (toolMessages : List Message) (newHumanMessage : Message)
    (context : Option ArtifactContext) (prev : StreamValues) : StreamValues :=
  { prev with
    context := context
    messages := some ((prev.messages.getD []) ++ toolMessages ++ [newHumanMessage]) }

/-- `handleSubmit` of `index.tsx`: guard on empty trimmed input or an
in-flight submission, then build the new human message from the trimmed
input, reconcile tool calls, attach the context when non-empty, dispatch,
clear the input buffer and reset the first-token flag. Returns the
dispatched call (or `none` on the guard path) and the new local state. -/
def handleSubmit (input : String) (isLoading : Bool) (streamMessages : List Message)
    (artifactContext : ArtifactContext) (freshId : String) (s : ThreadLocal) :
    Option SubmitCall × ThreadLocal :=
  if (jsTrim input).length = 0 ∨ isLoading = true then (none, s)
  else
    let newHumanMessage := humanTextMessage freshId (jsTrim input)
    let toolMessages := ensureToolCallsHaveResponses streamMessages
    let context := contextIfNonEmpty artifactContext
    (some { messages := toolMessages ++ [newHumanMessage]
            context := context
            streamMode := ["values"]
            optimisticValues := mkOptimisticValues toolMessages newHumanMessage context },
      { s with input := "", firstTokenReceived := false })

/-- The human message built by the attachment-capable `handleSubmit`
variant: a text block holding the (untrimmed) input when the trimmed input
is non-empty, followed by the pending content blocks. -/
def humanBlocksMessage (freshId input : String) (contentBlocks : List ContentBlock) :
    Message :=
  { id := freshId
    role := .human
    content := .blocks
      ((if (jsTrim input).length > 0 then [{ type := "text", text := input }] else [])
        ++ contentBlocks) }

/-- `handleSubmit` of the attachment-capable variant: the guard also lets a
submission with an empty input but pending attachment blocks through, and
the post-dispatch clears both the input buffer and the block list. -/
def handleSubmitWithBlocks (input : String) (contentBlocks : List ContentBlock)
    (isLoading : Bool) (streamMessages : List Message)
    (artifactContext : ArtifactContext) (freshId : String) (s : ThreadLocal) :
    Option SubmitCall × ThreadLocal :=
  if ((jsTrim input).length = 0 ∧ contentBlocks.length = 0) ∨ isLoading = true then (none, s)
  else
    let newHumanMessage := humanBlocksMessage freshId input contentBlocks
    let toolMessages := ensureToolCallsHaveResponses streamMessages
    let context := contextIfNonEmpty artifactContext
    (some { messages := toolMessages ++ [newHumanMessage]
            context := context
            streamMode := ["values"]
            optimisticValues := mkOptimisticValues toolMessages newHumanMessage context },
      { s with input := "", contentBlocks := [], firstTokenReceived := false })

/-- The fixed list of lucky prompts of the welcome-screen variant. -/
def luckyPrompts : List String :=
  [ "Create a beautiful landing page for a coffee shop"
  , "Design a dashboard for tracking fitness goals"
  , "Build a portfolio website for a photographer"
  , "Make a booking system for a restaurant"
  , "Create a weather app with animations"
  , "Design a task management tool"
  , "Build a recipe sharing platform"
  , "Create a music player interface"
  , "Design a travel booking website"
  , "Make a social media profile page"
  , "Create a modern e-commerce product page"
  , "Design a meditation and mindfulness app"
  , "Build a real estate listing website"
  , "Create a cryptocurrency trading dashboard"
  , "Design a food delivery app interface"
  , "Make a workout tracking application"
  , "Create a news aggregator website"
  , "Design a video streaming platform"
  , "Build a job board and career portal"
  , "Create a plant care and garden tracker" ]

/-- `handleLuckyClick` of the welcome-screen variant: no-op while loading,
otherwise auto-submits a random prompt from `luckyPrompts`
(`Math.floor(Math.random() * luckyPrompts.length)` is modelled as the
`randomIndex` argument). The input buffer is not cleared. -/
def handleLuckyClick (randomIndex : Fin luckyPrompts.length) (isLoading : Bool)
    (streamMessages : List Message) (artifactContext : ArtifactContext)
    (freshId : String) (s : ThreadLocal) : Option SubmitCall × ThreadLocal :=
  if isLoading = true then (none, s)
  else
    let randomPrompt := luckyPrompts.get randomIndex
    let newHumanMessage := humanTextMessage freshId randomPrompt
    let toolMessages := ensureToolCallsHaveResponses streamMessages
    let context := contextIfNonEmpty artifactContext
    (some { messages := toolMessages ++ [newHumanMessage]
            context := context
            streamMode := ["values"]
            optimisticValues := mkOptimisticValues toolMessages newHumanMessage context },
      { s with firstTokenReceived := false })

/-! ## Error deduplicator and thread switching -/

/-- The `stream.error` value as inspected by the effect: only its
`.message` field is read, which may itself be absent. -/
structure ErrorLike where
  message : Option String
  deriving DecidableEq, Repr

/-- JavaScript falsiness of the extracted message text (`!message`):
absent or the empty string. -/
def isFalsyMessage : Option String → Bool
  | none => true
  | some s => s.isEmpty

/-- The error-deduplicating effect body, run on every `stream.error`
change. Returns the new `lastError.current` cell value together with the
text of the emitted toast, if any. No error clears the cell; a falsy or
already-reported message leaves everything unchanged; otherwise the cell
is updated and one toast carrying the message fires. -/
def errorEffect (err : Option ErrorLike) (lastError : Option String) :
    Option String × Option String :=
  match err with
  | none => (none, none)
  | some e =>
    if isFalsyMessage e.message ∨ lastError = e.message then (lastError, none)
    else (e.message, e.message)

/-- Runs `errorEffect` over a sequence of delivered `stream.error` values,
collecting the emitted toast texts in order. -/
def runErrors (errs : List (Option ErrorLike)) (lastError : Option String) :
    Option String × List String :=
  match errs with
  | [] => (lastError, [])
  | e :: rest =>
    let step := errorEffect e lastError
    let tail := runErrors rest step.1
    (tail.1, step.2.toList ++ tail.2)

/-- The per-conversation state touched by `setThreadId`: the thread id,
the artifact panel, the artifact context and the `lastError` ref. -/
structure ConversationState where
  threadId : Option String
  artifactOpen : Bool
  artifactContext : ArtifactContext
  lastError : Option String
  deriving DecidableEq, Repr

/-- `setThreadId`: store the new thread id, close the artifact panel and
reset the artifact context. Nothing else is touched. -/
def setThreadId (id : Option String) (s : ConversationState) : ConversationState :=
  { s with threadId := id, artifactOpen := false, artifactContext := [] }

/-! ## First-token effect -/

/-- The ref/flag pair driving the `AwaitingFirstToken` exit. -/
structure TokenWatch where
  prevMessageLength : Nat
  firstTokenReceived : Bool
  deriving DecidableEq, Repr

/-- Whether the last message of the sequence is `ai`-role
(`messages[messages.length - 1].type === "ai"`). -/
def lastIsAi (messages : List Message) : Bool :=
  match messages.getLast? with
  | some m => match m.role with
    | .ai => true
    | _ => false
  | none => false

/-- The effect run on every `messages` change: sets the first-token flag
when the length changed, the sequence is non-empty and its last message is
`ai`-role, then records the new length in the ref. -/
def messagesEffect (messages : List Message) (s : TokenWatch) : TokenWatch :=
  { prevMessageLength := messages.length
    firstTokenReceived :=
      if messages.length ≠ s.prevMessageLength ∧ messages.length ≠ 0
          ∧ lastIsAi messages = true then
        true
      else
        s.firstTokenReceived }

/-! ## Full-screen component selector -/

/-- `FullScreenCustomComponents`: filter `values.ui` to the payloads named
`"llm-ui"`; render nothing when there are none, otherwise the last one. -/
def selectFullScreen (values : StreamValues) : Option UIPayload :=
  let customComponents := (values.ui.getD []).filter (fun u => u.name == "llm-ui")
  if customComponents.isEmpty then none
  else customComponents.getLast?

/-! ## Concrete example values used in witnesses and counterexamples -/

/-- Example confirmed human message. -/
def exH0 : Message := { id := "h0", role := .human, content := .text "hi" }

/-- Example confirmed ai message. -/
def exAI0 : Message := { id := "ai0", role := .ai, content := .text "hello there" }

/-- Example previous snapshot with two confirmed messages. -/
def exPrev : StreamValues := { messages := some [exH0, exAI0], ui := none, context := none }

/-- Example local component state. -/
def exLocal : ThreadLocal :=
  { input := "draft", contentBlocks := [], firstTokenReceived := true }

/-! ## Claim theorems -/

/-- C2: for every previous snapshot `prev`, the optimistic projection
supplied to the channel on a (guard-passing) submit yields
`prev.messages` (read as `[]` when absent) with the synthetic tool results
and the new human message appended at the end, and the prefix of the
projected sequence of the previous length is exactly the previous message
list, so every previously existing message appears unchanged at the same
position. -/
theorem optimistic_projection_appends_suffix
    (input : String) (streamMessages : List Message) (artifactContext : ArtifactContext)
    (freshId : String) (s : ThreadLocal) (prev : StreamValues)
    (h : (jsTrim input).length ≠ 0) :
    ((handleSubmit input false streamMessages artifactContext freshId s).1.map
        (fun call => (call.optimisticValues prev).messages))
      = some (some ((prev.messages.getD [])
          ++ ensureToolCallsHaveResponses streamMessages
          ++ [humanTextMessage freshId (jsTrim input)]))
    ∧ ((prev.messages.getD [])
          ++ ensureToolCallsHaveResponses streamMessages
          ++ [humanTextMessage freshId (jsTrim input)]).take (prev.messages.getD []).length
        = prev.messages.getD [] := by
  constructor
  · simp [handleSubmit, h, mkOptimisticValues]
  · rw [List.append_assoc, List.take_left]

/-- Witness for C2 at `submit("hello")` over the confirmed sequence
`[exH0, exAI0]`. -/
theorem optimistic_projection_appends_suffix_witness :
    (jsTrim "hello").length ≠ 0
    ∧ (((handleSubmit "hello" false [] [] "h1" exLocal).1.map
          (fun call => (call.optimisticValues exPrev).messages))
        = some (some ((exPrev.messages.getD [])
            ++ ensureToolCallsHaveResponses []
            ++ [humanTextMessage "h1" (jsTrim "hello")]))
      ∧ ((exPrev.messages.getD [])
            ++ ensureToolCallsHaveResponses []
            ++ [humanTextMessage "h1" (jsTrim "hello")]).take (exPrev.messages.getD []).length
          = exPrev.messages.getD []) :=
  ⟨by decide,
    optimistic_projection_appends_suffix "hello" [] [] "h1" exLocal exPrev (by decide)⟩

/-- C4: over the delivered error texts `["E1","E1","E2","E1"]` with no
intervening error-free snapshot, the deduplicator fires toasts carrying
`"E1"`, `"E2"`, `"E1"`: exactly two over the first three deliveries and
three over the whole sequence; the second consecutive `"E1"` is
suppressed, and the final `"E1"` fires again because the last-seen text
had changed to `"E2"`. -/
theorem error_dedup_E1_E1_E2_E1 :
    (runErrors [some ⟨some "E1"⟩, some ⟨some "E1"⟩, some ⟨some "E2"⟩,
        some ⟨some "E1"⟩] none).2
      = ["E1", "E2", "E1"]
    ∧ (runErrors [some ⟨some "E1"⟩, some ⟨some "E1"⟩, some ⟨some "E2"⟩] none).2
      = ["E1", "E2"] := by
  constructor <;> rfl

/-- C5: both submit handlers are silent no-ops — no dispatch, local state
untouched — when the trimmed text is empty and the attachment list is
empty (the plain-text variant has no attachments, so empty trimmed text
suffices there), and whenever a submission is already in flight. -/
theorem submit_noop_guards (input : String) (contentBlocks : List ContentBlock)
    (isLoading : Bool) (streamMessages : List Message)
    (artifactContext : ArtifactContext) (freshId : String) (s sv : ThreadLocal) :
    ((((jsTrim input).length = 0 ∧ contentBlocks.length = 0) ∨ isLoading = true) →
        handleSubmitWithBlocks input contentBlocks isLoading streamMessages
          artifactContext freshId s = (none, s))
    ∧ (((jsTrim input).length = 0 ∨ isLoading = true) →
        handleSubmit input isLoading streamMessages artifactContext freshId sv
          = (none, sv)) := by
  constructor
  · intro h
    rw [handleSubmitWithBlocks, if_pos h]
  · intro h
    rw [handleSubmit, if_pos h]

/-- Witness for C5: `submit("", [], {})` while not loading dispatches
nothing, and `submit("hi", [], {})` while loading dispatches nothing. -/
theorem submit_noop_guards_witness :
    ((((jsTrim "").length = 0 ∧ ([] : List ContentBlock).length = 0) ∨ false = true)
      ∧ handleSubmitWithBlocks "" [] false [] [] "f1" exLocal = (none, exLocal))
    ∧ (((jsTrim "hi").length = 0 ∨ true = true)
      ∧ handleSubmit "hi" true [] [] "f1" exLocal = (none, exLocal)) := by
  constructor
  · exact ⟨by decide, (submit_noop_guards "" [] false [] [] "f1" exLocal exLocal).1 (by decide)⟩
  · exact ⟨by decide, (submit_noop_guards "hi" [] true [] [] "f1" exLocal exLocal).2 (by decide)⟩

/-- Example conversation state in a prior conversation whose last surfaced
error text is `"E1"`. -/
def exSwitchState : ConversationState :=
  { threadId := some "t1", artifactOpen := true
    artifactContext := [("k", "v")], lastError := some "E1" }

/-- C3 counterexample: selecting a new thread via `setThreadId` does not
clear the last reported error text cell — it still holds `"E1"` — so a
first error of the new conversation carrying the same text is
suppressed. -/
theorem setThreadId_keeps_lastError_cx :
    (setThreadId (some "t2") exSwitchState).lastError = some "E1"
    ∧ (setThreadId (some "t2") exSwitchState).lastError ≠ none
    ∧ (errorEffect (some ⟨some "E1"⟩)
        (setThreadId (some "t2") exSwitchState).lastError).2 = none := by
  refine ⟨rfl, by decide, rfl⟩

/-- C3 amended: `setThreadId` stores the new thread id and resets the
artifact state but leaves the last reported error text cell unchanged; the
cell is cleared only by the error effect observing an error-free
snapshot. -/
theorem setThreadId_resets_artifact_only (id : Option String) (s : ConversationState) :
    (setThreadId id s).lastError = s.lastError
    ∧ (setThreadId id s).artifactContext = []
    ∧ (setThreadId id s).artifactOpen = false
    ∧ (setThreadId id s).threadId = id
    ∧ ∀ last : Option String, (errorEffect none last).1 = none := by
  exact ⟨rfl, rfl, rfl, rfl, fun last => rfl⟩

/-- Example previous snapshot that carries a context mapping. -/
def exPrevWithContext : StreamValues :=
  { messages := some [exH0, exAI0], ui := none, context := some [("note", "kept")] }

/-- C7 counterexample: with an empty artifact mapping the optimistic
projection does not leave the previous snapshot's context field unchanged:
the `{ ...prev, context }` spread overwrites it with `undefined`. -/
theorem empty_context_overwrites_prev_cx :
    exPrevWithContext.context = some [("note", "kept")]
    ∧ ((handleSubmit "hi" false [] [] "f2" exLocal).1.map
        (fun call => (call.optimisticValues exPrevWithContext).context)) = some none := by
  exact ⟨rfl, rfl⟩

/-- C7 amended: the dispatched increment and the optimistic projection both
carry the artifact context exactly when the mapping is non-empty; when it
is empty they carry `undefined`, the projection overwriting the previous
snapshot's context field rather than leaving it unchanged. -/
theorem context_attached_iff_nonempty
    (input : String) (streamMessages : List Message)
    (artifactContext : ArtifactContext) (freshId : String) (s : ThreadLocal)
    (prev : StreamValues) (h : (jsTrim input).length ≠ 0) :
    ((handleSubmit input false streamMessages artifactContext freshId s).1.map
        (fun call => call.context))
      = some (if artifactContext.length > 0 then some artifactContext else none)
    ∧ ((handleSubmit input false streamMessages artifactContext freshId s).1.map
        (fun call => (call.optimisticValues prev).context))
      = some (if artifactContext.length > 0 then some artifactContext else none) := by
  constructor
  · simp [handleSubmit, h, contextIfNonEmpty]
  · simp [handleSubmit, h, contextIfNonEmpty, mkOptimisticValues]

/-- Witness for C7 amended with the non-empty mapping `[("a", "1")]`. -/
theorem context_attached_iff_nonempty_witness :
    (jsTrim "hello").length ≠ 0
    ∧ (((handleSubmit "hello" false [] [("a", "1")] "f3" exLocal).1.map
          (fun call => call.context))
        = some (if ([("a", "1")] : ArtifactContext).length > 0
            then some [("a", "1")] else none)
      ∧ ((handleSubmit "hello" false [] [("a", "1")] "f3" exLocal).1.map
          (fun call => (call.optimisticValues exPrev).context))
        = some (if ([("a", "1")] : ArtifactContext).length > 0
            then some [("a", "1")] else none)) :=
  ⟨by decide,
    context_attached_iff_nonempty "hello" [] [("a", "1")] "f3" exLocal exPrev (by decide)⟩

/-- Example streamed ai message. -/
def exAIChunk : Message := { id := "ai1", role := .ai, content := .text "chunk" }

/-- C8 counterexample: a delivered snapshot whose last message is ai-role
but whose length equals the previously recorded length does not set the
first-token flag, although the claim requires it to be set whenever the
last element has role ai. -/
theorem first_token_requires_length_change_cx :
    lastIsAi [exAIChunk] = true
    ∧ (messagesEffect [exAIChunk]
        { prevMessageLength := 1, firstTokenReceived := false }).firstTokenReceived
      = false := by
  exact ⟨rfl, rfl⟩

/-- C8 amended: after the messages effect the first-token flag is set iff
the delivered length differs from the previously recorded one, the
sequence is non-empty and its last message is ai-role — or the flag was
already set; the recorded length is then updated to the delivered one. -/
theorem messagesEffect_fire_condition (messages : List Message) (s : TokenWatch) :
    (messagesEffect messages s).firstTokenReceived
      = (((messages.length != s.prevMessageLength) && (messages.length != 0)
            && lastIsAi messages) || s.firstTokenReceived)
    ∧ (messagesEffect messages s).prevMessageLength = messages.length := by
  constructor
  · rw [messagesEffect]
    by_cases h1 : messages.length = s.prevMessageLength
    · simp [h1]
    · by_cases h2 : messages.length = 0
      · simp [h1, h2]
      · by_cases h3 : lastIsAi messages = true
        · simp [h1, h2, h3]
        · simp [h1, h2, h3]
  · rfl

/-- C9: when the error is present but its message text is absent or empty
(falsy), the deduplicator emits no toast and leaves the last-reported cell
unchanged — in particular it is not cleared — so a subsequent error
carrying the previously surfaced text is still suppressed. -/
theorem falsy_error_message_noop (e : ErrorLike) (lastError : Option String)
    (t : String) (hf : isFalsyMessage e.message = true) (ht : lastError = some t) :
    errorEffect (some e) lastError = (lastError, none)
    ∧ (errorEffect (some ⟨some t⟩) ((errorEffect (some e) lastError).1)).2 = none := by
  have h0 : errorEffect (some e) lastError = (lastError, none) := by
    simp only [errorEffect]
    rw [if_pos (Or.inl hf)]
  refine ⟨h0, ?_⟩
  rw [h0, ht]
  simp [errorEffect]

/-- Witness for C9: a falsy error delivered while `"E1"` is the last
surfaced text, followed by an `"E1"` error, yields no toast. -/
theorem falsy_error_message_noop_witness :
    isFalsyMessage (ErrorLike.mk none).message = true
    ∧ (some "E1" : Option String) = some "E1"
    ∧ (errorEffect (some ⟨none⟩) (some "E1") = (some "E1", none)
      ∧ (errorEffect (some ⟨some "E1"⟩)
          ((errorEffect (some ⟨none⟩) (some "E1")).1)).2 = none) :=
  ⟨rfl, rfl, falsy_error_message_noop ⟨none⟩ (some "E1") "E1" rfl rfl⟩

/-- C10: `handleLuckyClick` is a no-op while a submission is in flight;
otherwise it dispatches an increment ending in a new human message whose
content is drawn from the fixed 20-element lucky-prompt list, resetting
the first-token flag but — unlike `handleSubmit` — leaving the local input
buffer unchanged. -/
theorem lucky_click_spec (randomIndex : Fin luckyPrompts.length)
    (streamMessages : List Message) (artifactContext : ArtifactContext)
    (freshId : String) (s : ThreadLocal) :
    luckyPrompts.length = 20
    ∧ handleLuckyClick randomIndex true streamMessages artifactContext freshId s
      = (none, s)
    ∧ ((handleLuckyClick randomIndex false streamMessages artifactContext freshId s).1.map
        (fun call => call.messages.getLast?))
      = some (some (humanTextMessage freshId (luckyPrompts.get randomIndex)))
    ∧ luckyPrompts.get randomIndex ∈ luckyPrompts
    ∧ (handleLuckyClick randomIndex false streamMessages artifactContext
        freshId s).2.input = s.input
    ∧ (handleLuckyClick randomIndex false streamMessages artifactContext
        freshId s).2.firstTokenReceived = false := by
  refine ⟨rfl, ?_, ?_, ?_, ?_, ?_⟩
  · rw [handleLuckyClick, if_pos rfl]
  · simp [handleLuckyClick, List.getLast?_concat]
  · exact List.get_mem luckyPrompts randomIndex.val randomIndex.isLt
  · simp [handleLuckyClick]
  · simp [handleLuckyClick]

theorem getLast?_filter_decomp {α : Type} (p : α → Bool) (l : List α) (u : α)
    (h : (l.filter p).getLast? = some u) :
    p u = true ∧ ∃ l1 l2, l = l1 ++ u :: l2 ∧ ∀ v ∈ l2, p v = false := by
  induction l with
  | nil => simp [List.filter] at h
  | cons a t ih =>
    by_cases hpa : p a = true
    · rw [List.filter_cons_of_pos hpa] at h
      cases hft : t.filter p with
      | nil =>
        rw [hft] at h
        simp only [List.getLast?_singleton, Option.some.injEq] at h
        subst h
        refine ⟨hpa, [], t, rfl, ?_⟩
        intro v hv
        have hnot := List.filter_eq_nil_iff.mp hft v hv
        simpa using hnot
      | cons b bs =>
        rw [hft, List.getLast?_cons_cons, ← hft] at h
        obtain ⟨hp, l1, l2, heq, hnone⟩ := ih h
        exact ⟨hp, a :: l1, l2, by rw [heq, List.cons_append], hnone⟩
    · rw [List.filter_cons_of_neg (by simpa using hpa)] at h
      obtain ⟨hp, l1, l2, heq, hnone⟩ := ih h
      exact ⟨hp, a :: l1, l2, by rw [heq, List.cons_append], hnone⟩

theorem selectFullScreen_eq_getLast (values : StreamValues) :
    selectFullScreen values
      = ((values.ui.getD []).filter (fun u => u.name == "llm-ui")).getLast? := by
  simp only [selectFullScreen]
  by_cases h : ((values.ui.getD []).filter (fun u => u.name == "llm-ui")).isEmpty = true
  · rw [if_pos h]
    have hnil : (values.ui.getD []).filter (fun u => u.name == "llm-ui") = [] := by
      simpa [List.isEmpty_iff] using h
    rw [hnil]
    rfl
  · rw [if_neg h]

/-- C6: the full-screen selector returns `none` exactly when no UI payload
of the snapshot carries the reserved marker name `"llm-ui"`; when it
returns a payload, that payload carries the marker and is the last
marker-bearing payload in arrival order; and the selector is a pure
function of the snapshot's `ui` field, retaining no state. -/
theorem selectFullScreen_last_marker (values : StreamValues) :
    (selectFullScreen values = none ↔ ∀ u ∈ values.ui.getD [], u.name ≠ "llm-ui")
    ∧ (∀ u : UIPayload, selectFullScreen values = some u →
        u.name = "llm-ui"
          ∧ ∃ l1 l2, values.ui.getD [] = l1 ++ u :: l2
              ∧ ∀ v ∈ l2, v.name ≠ "llm-ui")
    ∧ (∀ w : StreamValues, w.ui = values.ui →
        selectFullScreen w = selectFullScreen values) := by
  refine ⟨?_, ?_, ?_⟩
  · rw [selectFullScreen_eq_getLast, List.getLast?_eq_none_iff, List.filter_eq_nil_iff]
    simp
  · intro u h
    rw [selectFullScreen_eq_getLast] at h
    obtain ⟨hp, l1, l2, heq, hnone⟩ := getLast?_filter_decomp _ _ _ h
    refine ⟨by simpa using hp, l1, l2, heq, ?_⟩
    intro v hv
    simpa using hnone v hv
  · intro w hw
    rw [selectFullScreen_eq_getLast, selectFullScreen_eq_getLast, hw]

/-- Example marker payloads `A` and `B`. -/
def payloadA : UIPayload := { id := "a", name := "llm-ui" }

/-- Example marker payload arriving after `payloadA`. -/
def payloadB : UIPayload := { id := "b", name := "llm-ui" }

/-- Example snapshot whose `ui` list is `[payloadA, payloadB]`. -/
def exValuesUI : StreamValues :=
  { messages := none, ui := some [payloadA, payloadB], context := none }

/-- Witness for C6 (P5): with marker payloads `A` then `B` the selector
picks `B`, which carries the marker and is the last marker payload. -/
theorem selectFullScreen_last_marker_witness :
    payloadB.name = "llm-ui"
    ∧ ∃ l1 l2, exValuesUI.ui.getD [] = l1 ++ payloadB :: l2
        ∧ ∀ v ∈ l2, v.name ≠ "llm-ui" :=
  (selectFullScreen_last_marker exValuesUI).2.1 payloadB (by rfl)

end AgentChat
